import Mathlib

/-!
Verification development for the `uc-intg-synology-system` integration.

The Python sources under `uc_intg_synology_system/` are shallowly embedded:
pure helper functions become Lean functions on `List Char` / `String`,
dictionaries become association lists with Python-dict insertion semantics,
and the stateful polling / command-dispatch code becomes explicit state
passing.  Machine floats only ever carry integral values on the paths
modelled here, so `Int` together with an explicit one-decimal renderer is
used for Python `:.1f` formatting of integers.
-/

set_option maxHeartbeats 2000000

namespace Synology

/-- Python-style slice `s[:k]` on a list of characters: a negative `k`
counts from the end of the list (`s[:k] = s[:len(s)+k]`, clamped at 0). -/
def pyTake (s : List Char) (k : Int) : List Char :=
  if k < 0 then s.take ((s.length : Int) + k).toNat else s.take k.toNat

/-- The three-character ellipsis marker `"..."` appended by
`create_two_line_display` (helpers.py) when a line is truncated. -/
def ellipsis : List Char := ['.', '.', '.']

/-- One line of `create_two_line_display` (helpers.py, lines 210-225):
`if len(line) > max_length: line = line[:max_length-3] + "..."`.
The slice index `max_length - 3` is computed in `Int`, exactly as Python
computes it, so that `max_length < 3` reproduces Python's negative-index
slicing. -/
def truncate_line (line : List Char) (max_length : Nat) : List Char :=
  if line.length > max_length then pyTake line ((max_length : Int) - 3) ++ ellipsis
  else line

/-- `create_two_line_display(line1, line2, max_length=80)` from helpers.py:
truncates each line independently with `truncate_line`. -/
def create_two_line_display (line1 line2 : List Char) (max_length : Nat) :
    List Char × List Char :=
  (truncate_line line1 max_length, truncate_line line2 max_length)

lemma truncate_line_length_le (line : List Char) (max_length : Nat)
    (h : 3 ≤ max_length) : (truncate_line line max_length).length ≤ max_length := by
  unfold truncate_line
  by_cases hlen : line.length > max_length
  · simp only [hlen, if_true]
    unfold pyTake
    have hk : ¬ ((max_length : Int) - 3 < 0) := by omega
    simp only [hk, if_false]
    rw [List.length_append, List.length_take]
    have : ((max_length : Int) - 3).toNat = max_length - 3 := by omega
    rw [this]
    have : ellipsis.length = 3 := rfl
    rw [this]
    omega
  · simp only [hlen, if_false]
    omega

lemma truncate_line_ellipsis (line : List Char) (max_length : Nat)
    (h : line.length > max_length) :
    ∃ t, truncate_line line max_length = t ++ ellipsis := by
  unfold truncate_line
  simp only [h, if_true]
  exact ⟨_, rfl⟩

/-- C3 (corrected): for `3 ≤ max_length`, both lines returned by
`create_two_line_display` have length at most `max_length`, and a line
whose input exceeded `max_length` comes back ending in the ellipsis
marker `"..."`.  (For `max_length < 3` the length bound fails, see the
counterexample.) -/
theorem create_two_line_display_bounded (line1 line2 : List Char)
    (max_length : Nat) (h : 3 ≤ max_length) :
    (create_two_line_display line1 line2 max_length).1.length ≤ max_length ∧
    (create_two_line_display line1 line2 max_length).2.length ≤ max_length ∧
    (line1.length > max_length →
      ∃ t, (create_two_line_display line1 line2 max_length).1 = t ++ ellipsis) ∧
    (line2.length > max_length →
      ∃ t, (create_two_line_display line1 line2 max_length).2 = t ++ ellipsis) := by
  refine ⟨truncate_line_length_le line1 max_length h,
          truncate_line_length_le line2 max_length h, ?_, ?_⟩
  · intro hl; exact truncate_line_ellipsis line1 max_length hl
  · intro hl; exact truncate_line_ellipsis line2 max_length hl

/-- Witness for C3 at `line1 = "abcdefgh"`, `line2 = "x"`, `max_length = 5`. -/
theorem create_two_line_display_bounded_witness :
    (create_two_line_display ("abcdefgh".toList) ("x".toList) 5).1.length ≤ 5 ∧
    (create_two_line_display ("abcdefgh".toList) ("x".toList) 5).2.length ≤ 5 ∧
    (("abcdefgh".toList).length > 5 →
      ∃ t, (create_two_line_display ("abcdefgh".toList) ("x".toList) 5).1 = t ++ ellipsis) ∧
    (("x".toList).length > 5 →
      ∃ t, (create_two_line_display ("abcdefgh".toList) ("x".toList) 5).2 = t ++ ellipsis) :=
  create_two_line_display_bounded ("abcdefgh".toList) ("x".toList) 5 (by decide)

/-- Counterexample to C3 as stated: at `max_length = 2` the input
`"aaaa"` is sliced with the negative Python index `2 - 3 = -1`
(`"aaaa"[:-1] = "aaa"`), so the returned first line `"aaa..."` has
length 6 > 2, violating the claimed bound for every configured maximum
length. -/
theorem create_two_line_display_small_max_violation :
    ¬ ((create_two_line_display ("aaaa".toList) ("".toList) 2).1.length ≤ 2) := by
  decide

/-- The `enabled_features` dictionary of `SynologyConfig` (config.py):
one boolean per feature key.  `enabled_features.get(key, True)` in the
source reads the stored value when the key is present; the claims
quantify over every combination of stored flags, so the record keeps all
seven keys present. -/
structure EnabledFeatures where
  docker_monitoring : Bool
  security_monitoring : Bool
  network_monitoring : Bool
  storage_monitoring : Bool
  ups_monitoring : Bool
  surveillance_monitoring : Bool
  enhanced_monitoring : Bool
deriving DecidableEq

/-- Python-dict assignment `m[k] = v` on an association list: replaces
the value in place when the key is present (keeping its position),
otherwise appends the pair at the end — exactly CPython's insertion-order
semantics used by `get_enabled_sources`. -/
def dictInsert (m : List (String × String)) (k v : String) : List (String × String) :=
  if m.any (fun p => p.1 == k) then m.map (fun p => if p.1 == k then (p.1, v) else p)
  else m ++ [(k, v)]

/-- `SynologyConfig.get_enabled_sources` (config.py, lines 212-259),
with membership of `"Docker"` / `"SurveillanceStation"` in
`available_packages` abstracted as the two booleans
`docker_available` / `surveillance_available`.  The construction order
(including the duplicate surveillance insertion of the source, a no-op
under dict semantics) follows the Python body line by line. -/
def get_enabled_sources (features : EnabledFeatures)
    (docker_available surveillance_available : Bool) : List (String × String) :=
  let s0 : List (String × String) :=
    [("SYSTEM_OVERVIEW", "System Overview"), ("STORAGE_STATUS", "Storage Status")]
  let s1 := if features.network_monitoring then
      dictInsert s0 "NETWORK_STATS" "Network Statistics" else s0
  let s2 := if features.security_monitoring then
      dictInsert s1 "SECURITY_STATUS" "Security Status" else s1
  let s3 := dictInsert s2 "SERVICES_STATUS" "Services Status"
  let s4 := if features.enhanced_monitoring then
      dictInsert (dictInsert (dictInsert (dictInsert (dictInsert (dictInsert
        (dictInsert (dictInsert (dictInsert (dictInsert (dictInsert s3
          "THERMAL_STATUS" "Temperature Monitor")
          "CACHE_STATUS" "SSD Cache")
          "RAID_STATUS" "RAID Health")
          "VOLUME_STATUS" "Volume Usage")
          "UPS_STATUS" "UPS Monitor")
          "HARDWARE_MONITOR" "Hardware Monitor")
          "DRIVE_HEALTH" "Drive Health")
          "POWER_MANAGEMENT" "Power Management")
          "CACHE_PERFORMANCE" "Cache Performance")
          "PACKAGE_MANAGER" "Package Manager")
          "USER_SESSIONS" "User Sessions"
    else s3
  let s5 := if features.surveillance_monitoring && surveillance_available then
      dictInsert s4 "SURVEILLANCE_STATUS" "Surveillance Station" else s4
  let s6 := if features.docker_monitoring && docker_available then
      dictInsert s5 "DOCKER_STATUS" "Docker Containers" else s5
  if features.surveillance_monitoring && surveillance_available then
    dictInsert s6 "SURVEILLANCE_STATUS" "Surveillance Station" else s6

/-- The reverse lookup performed in
`SynologySystemDashboard._update_current_data` (media_player.py,
lines 268-272): when the current source string occurs among the display
names, take the key of the first pair whose display name matches,
otherwise keep the string itself. -/
def reverse_lookup (sources : List (String × String)) (current : String) : String :=
  if sources.any (fun p => p.2 == current) then
    match sources.find? (fun p => p.2 == current) with
    | some p => p.1
    | none => current
  else current

/-- The feature dictionary with every flag disabled. -/
def allFeaturesOff : EnabledFeatures :=
  ⟨false, false, false, false, false, false, false⟩

lemma get_enabled_sources_flags_aux :
    ∀ (a b c d e f g da sa : Bool),
      let reg := get_enabled_sources ⟨a, b, c, d, e, f, g⟩ da sa
      ("SYSTEM_OVERVIEW" ∈ reg.map Prod.fst) ∧
      ("STORAGE_STATUS" ∈ reg.map Prod.fst) ∧
      ("SERVICES_STATUS" ∈ reg.map Prod.fst) ∧
      ("NETWORK_STATS" ∈ reg.map Prod.fst ↔ c = true) ∧
      ("SECURITY_STATUS" ∈ reg.map Prod.fst ↔ b = true) := by decide

/-- C1 (corrected): for every combination of feature flags and package
availability, the registry built by `get_enabled_sources` contains the
baseline sources `SYSTEM_OVERVIEW` and `STORAGE_STATUS`, contains
`NETWORK_STATS` iff `network_monitoring` is enabled and
`SECURITY_STATUS` iff `security_monitoring` is enabled — and contains
`SERVICES_STATUS` unconditionally (there is no services feature flag;
config.py line 230 always adds it). -/
theorem get_enabled_sources_flag_correspondence (features : EnabledFeatures)
    (docker_available surveillance_available : Bool) :
    let reg := get_enabled_sources features docker_available surveillance_available
    ("SYSTEM_OVERVIEW" ∈ reg.map Prod.fst) ∧
    ("STORAGE_STATUS" ∈ reg.map Prod.fst) ∧
    ("SERVICES_STATUS" ∈ reg.map Prod.fst) ∧
    ("NETWORK_STATS" ∈ reg.map Prod.fst ↔ features.network_monitoring = true) ∧
    ("SECURITY_STATUS" ∈ reg.map Prod.fst ↔ features.security_monitoring = true) := by
  obtain ⟨a, b, c, d, e, f, g⟩ := features
  exact get_enabled_sources_flags_aux a b c d e f g docker_available surveillance_available

/-- Counterexample to C1 as stated: with every feature flag disabled and
no packages available, the registry still contains `SERVICES_STATUS`,
so its presence is not governed by any feature flag. -/
theorem services_status_present_without_any_flag :
    "SERVICES_STATUS" ∈ (get_enabled_sources allFeaturesOff false false).map Prod.fst := by
  decide

lemma get_enabled_sources_roundtrip_aux :
    ∀ (a b c d e f g da sa : Bool),
      let reg := get_enabled_sources ⟨a, b, c, d, e, f, g⟩ da sa
      (reg.map Prod.fst).Nodup ∧
      (reg.map Prod.snd).Nodup ∧
      (∀ p ∈ reg, reverse_lookup reg p.2 = p.1) := by decide

/-- C7 (confirmed): in every registry produced by `get_enabled_sources`,
the source keys are pairwise distinct (each key maps to exactly one
display name), the display names are pairwise distinct, and reverse
lookup of any entry's display name — as performed during source
selection and data update — returns that entry's key. -/
theorem get_enabled_sources_display_name_roundtrip (features : EnabledFeatures)
    (docker_available surveillance_available : Bool) :
    let reg := get_enabled_sources features docker_available surveillance_available
    (reg.map Prod.fst).Nodup ∧
    (reg.map Prod.snd).Nodup ∧
    (∀ p ∈ reg, reverse_lookup reg p.2 = p.1) := by
  obtain ⟨a, b, c, d, e, f, g⟩ := features
  exact get_enabled_sources_roundtrip_aux a b c d e f g docker_available surveillance_available

/-- Witness for C7: with every flag enabled and both packages available,
the display name `"SSD Cache"` looks back up to the key `"CACHE_STATUS"`. -/
theorem get_enabled_sources_display_name_roundtrip_witness :
    reverse_lookup (get_enabled_sources ⟨true, true, true, true, true, true, true⟩ true true)
      "SSD Cache" = "CACHE_STATUS" :=
  (get_enabled_sources_display_name_roundtrip ⟨true, true, true, true, true, true, true⟩
    true true).2.2 ("CACHE_STATUS", "SSD Cache") (by decide)

/-- `SynologyConstants.DEFAULT_POLLING` (helpers.py, lines 21-33): the
per-source polling-interval mapping seeded into the configuration. -/
def DEFAULT_POLLING : List (String × Nat) :=
  [("system_status", 10), ("storage_info", 30), ("service_status", 15),
   ("network_stats", 20), ("security_status", 60), ("hardware_monitor", 15),
   ("drive_health", 45), ("power_management", 30), ("cache_performance", 20),
   ("package_manager", 60), ("user_sessions", 30)]

/-- Python `dict.get(k, default)` on an association list of `Nat` values. -/
def dictGetNat (m : List (String × Nat)) (k : String) (dflt : Nat) : Nat :=
  match m.find? (fun p => p.1 == k) with
  | some p => p.2
  | none => dflt

/-- ASCII lowercase of one character, as Python `str.lower` acts on the
ASCII source strings involved here. -/
def pyLowerChar (c : Char) : Char :=
  if 65 ≤ c.toNat ∧ c.toNat ≤ 90 then Char.ofNat (c.toNat + 32) else c

/-- Python `str.lower()` on the ASCII strings used by the integration. -/
def pyLower (s : String) : String := ⟨s.data.map pyLowerChar⟩

/-- The sleep interval computed by one tick of
`SynologySystemDashboard._polling_loop` (media_player.py, line 696):
`self._config.polling_intervals.get(self._current_source.lower(), 15)`.
The lookup key is the lowercased currently selected source string. -/
def polling_loop_interval (polling_intervals : List (String × Nat))
    (current_source : String) : Nat :=
  dictGetNat polling_intervals (pyLower current_source) 15

/-- C2 (code bug): with the default configuration, the mapping holds the
configured interval 60 for the security source (key
`"security_status"`), yet when the selected source is the display name
`"Security Status"` the loop looks up the lowercased display name
`"security status"`, misses, and sleeps the fallback 15 — the configured
per-source intervals are never used for any registry source, whose
display names never lowercase to the mapping's snake_case keys. -/
theorem polling_interval_key_mismatch :
    polling_loop_interval DEFAULT_POLLING "Security Status" = 15 ∧
    dictGetNat DEFAULT_POLLING "security_status" 0 = 60 ∧
    polling_loop_interval DEFAULT_POLLING "Security Status" ≠ 60 := by
  refine ⟨by decide, by decide, by decide⟩

/-- Does `s` start with `pat`? -/
def listStartsWith (pat : List Char) : List Char → Bool
  | [] => pat.isEmpty
  | b :: bs =>
    match pat with
    | [] => true
    | a :: as => a == b && listStartsWith as bs

/-- Does `s` contain `pat` as a contiguous run of characters? -/
def listContainsSub (pat : List Char) : List Char → Bool
  | [] => pat.isEmpty
  | b :: bs => listStartsWith pat (b :: bs) || listContainsSub pat bs

/-- Python `pat in hay` substring containment. -/
def strContains (hay pat : String) : Bool := listContainsSub pat.data hay.data

/-- Python `f"{x:.1f}"` applied to an exact number of tenths: renders
`tenths / 10` with exactly one decimal digit.  The temperatures flowing
through `format_temperature` are integers (or integer-derived tenths),
for which CPython's float formatting produces exactly this string. -/
def pyFormatTenths (tenths : Int) : String :=
  if tenths < 0 then
    "-" ++ toString (tenths.natAbs / 10) ++ "." ++ toString (tenths.natAbs % 10)
  else toString (tenths.natAbs / 10) ++ "." ++ toString (tenths.natAbs % 10)

/-- `format_temperature(temp_celsius, unit)` from helpers.py
(lines 76-81).  The degree marker is reproduced byte-for-byte from the
source file, whose UTF-8 text contains the two characters `Â°`
(U+00C2 U+00B0, a double-encoded degree sign) rather than a lone `°`.
The fahrenheit branch applies `celsius_to_fahrenheit`
(`celsius * 9/5 + 32`), carried exactly in tenths. -/
def format_temperature (temp_celsius : Int) (unit : String) : String :=
  if pyLower unit == "fahrenheit" then
    pyFormatTenths (18 * temp_celsius + 320) ++ "Â°F"
  else pyFormatTenths (10 * temp_celsius) ++ "Â°C"

/-- The status ladder of `SynologySystemClient.get_thermal_status`
(client.py, lines 393-404). -/
def thermal_status_of_temp (temp_c : Int) : String :=
  if temp_c == 0 then "unavailable"
  else if temp_c < 60 then "optimal"
  else if temp_c < 70 then "normal"
  else if temp_c < 80 then "warm"
  else if temp_c < 90 then "hot"
  else "critical"

/-- The record returned by the success path of
`SynologySystemClient.get_thermal_status` (client.py, lines 409-417).
The disconnected and exception paths return reduced error records and
are not part of the successful-fetch scenario modelled here. -/
structure ThermalRecord where
  status : String
  system_temp : Int
  cpu_temp : Int
  temperature_formatted : String
  fan_mode : String
  warning_threshold : Int
  critical_threshold : Int
deriving DecidableEq

/-- `get_thermal_status` success path (client.py, lines 379-417):
`fan_status` and `cooling_mode` model the optional raw fields consulted
for the fan mode, defaulting to `"full_speed"`. -/
def get_thermal_status (sys_temp : Int) (fan_status cooling_mode : Option String)
    (temperature_unit : String) : ThermalRecord :=
  let fan_mode := match fan_status with
    | some f => f
    | none => match cooling_mode with
      | some c => c
      | none => "full_speed"
  { status := thermal_status_of_temp sys_temp
    system_temp := sys_temp
    cpu_temp := sys_temp
    temperature_formatted := format_temperature sys_temp temperature_unit
    fan_mode := fan_mode
    warning_threshold := 80
    critical_threshold := 90 }

/-- Python `str.title()` on ASCII text: the first letter of each
alphabetic run is uppercased, subsequent letters lowercased. -/
def pyTitleAux : Bool → List Char → List Char
  | _, [] => []
  | prevAlpha, c :: rest =>
    if c.isAlpha then
      (if prevAlpha then c.toLower else c.toUpper) :: pyTitleAux true rest
    else c :: pyTitleAux false rest

/-- Python `str.title()`. -/
def pyTitle (s : String) : String := ⟨pyTitleAux false s.data⟩

/-- `SynologySystemDashboard._update_thermal_status_display`
(media_player.py, lines 425-438): formats the thermal record into the
two display lines, passing them through `create_two_line_display` with
the default maximum length 80.  `none` models an empty (falsy) record. -/
def update_thermal_status_display (data : Option ThermalRecord) : String × String :=
  let lines : String × String :=
    match data with
    | some d =>
      if d.system_temp > 0 then
        ("Thermal - " ++ pyTitle d.status,
         "Temp: " ++ d.temperature_formatted ++ " | Fan: " ++ d.fan_mode)
      else ("Thermal Monitor", "Temperature sensor unavailable")
    | none => ("Thermal Monitor", "Temperature sensor unavailable")
  let r := create_two_line_display lines.1.data lines.2.data 80
  (⟨r.1⟩, ⟨r.2⟩)

/-- C5 (code bug): fetching thermal data at 45 degrees with unit
`"celsius"` yields exactly the claimed record fields
(`status = "optimal"`, `fan_mode = "auto"`, `system_temp = 45`) and the
display line does contain `"auto"`, but the temperature renders as
`"45.0Â°C"` — helpers.py stores a double-encoded degree sign — so the
claimed substring `"45.0°C"` does not occur. -/
theorem thermal_display_degree_sign :
    (get_thermal_status 45 (some "auto") none "celsius").status = "optimal" ∧
    (get_thermal_status 45 (some "auto") none "celsius").fan_mode = "auto" ∧
    (get_thermal_status 45 (some "auto") none "celsius").system_temp = 45 ∧
    strContains
      (update_thermal_status_display
        (some (get_thermal_status 45 (some "auto") none "celsius"))).2 "auto" = true ∧
    strContains
      (update_thermal_status_display
        (some (get_thermal_status 45 (some "auto") none "celsius"))).2 "45.0Â°C" = true ∧
    strContains
      (update_thermal_status_display
        (some (get_thermal_status 45 (some "auto") none "celsius"))).2 "45.0°C" = false := by
  decide

/-- The `ucapi.StatusCodes` values returned by the command handlers. -/
inductive StatusCodes where
  | OK
  | BAD_REQUEST
  | NOT_IMPLEMENTED
  | SERVER_ERROR
deriving DecidableEq

/-- Externally visible actions a command handler can perform: a data
fetch from the device client, an attribute push to the hub, and starting
or stopping the polling loop. -/
inductive HubEffect where
  | fetch (source_key : String)
  | push
  | startLoop
  | stopLoop
deriving DecidableEq

/-- The dashboard entity's attribute snapshot (media_player.py,
`_create_media_player_entity`). -/
structure DashboardAttributes where
  state : String
  source : String
  media_title : String
  media_artist : String
  media_image_url : String
deriving DecidableEq

/-- The mutable state of `SynologySystemDashboard` relevant to command
handling: the selected source, the attribute snapshot, and whether the
polling loop is active. -/
structure DashboardState where
  current_source : String
  attributes : DashboardAttributes
  polling_active : Bool
deriving DecidableEq

/-- Outcome of an awaited sub-handler over state `σ`: either the updated
state with the effects performed, or a raised exception carrying its
message and the state and effects at the point of the raise (Python
mutations performed before a raise persist). -/
abbrev SubOutcome (σ : Type) := Except (String × σ × List HubEffect) (σ × List HubEffect)

/-- The sub-handlers awaited by `SynologySystemDashboard.handle_command`.
Their bodies live in media_player.py; the dispatch properties proved
below hold for every behavior of these methods, so they are kept as
parameters of the dispatcher. -/
structure DashboardHandlers where
  sourceSelection : String → DashboardState → SubOutcome DashboardState
  powerOn : DashboardState → SubOutcome DashboardState
  powerOff : DashboardState → SubOutcome DashboardState
  navNext : DashboardState → SubOutcome DashboardState
  navPrev : DashboardState → SubOutcome DashboardState
  custom : String → Option (List (String × String)) → DashboardState →
    SubOutcome DashboardState

/-- `params.get(key) if params else None`. -/
def get_param (params : Option (List (String × String))) (key : String) : Option String :=
  match params with
  | none => none
  | some ps => (ps.find? (fun p => p.1 == key)).map Prod.snd

/-- `SUPPRESSED_COMMANDS` (media_player.py, lines 25-39): the string
values of the denylisted `ucapi.media_player.Commands` members. -/
def SUPPRESSED_COMMANDS : List String :=
  ["play_pause", "stop", "shuffle", "repeat", "next", "previous",
   "fast_forward", "rewind", "seek", "record", "my_recordings", "eject",
   "open_close"]

/-- The try-block of `SynologySystemDashboard.handle_command`
(media_player.py, lines 176-204), dispatching on the command identifier
in source order.  An empty `source` parameter is falsy in Python and is
answered `BAD_REQUEST` like a missing one. -/
def dashboard_try_body (h : DashboardHandlers) (st : DashboardState)
    (cmd_id : String) (params : Option (List (String × String))) :
    Except (String × DashboardState × List HubEffect)
      (StatusCodes × DashboardState × List HubEffect) :=
  if cmd_id == "select_source" then
    match get_param params "source" with
    | some s =>
      if s == "" then .ok (.BAD_REQUEST, st, [])
      else
        match h.sourceSelection s st with
        | .ok (st2, eff) => .ok (.OK, st2, eff)
        | .error e => .error e
    | none => .ok (.BAD_REQUEST, st, [])
  else if cmd_id == "on" then
    match h.powerOn st with
    | .ok (st2, eff) => .ok (.OK, st2, eff)
    | .error e => .error e
  else if cmd_id == "off" then
    match h.powerOff st with
    | .ok (st2, eff) => .ok (.OK, st2, eff)
    | .error e => .error e
  else if cmd_id == "volume_up" then
    match h.navNext st with
    | .ok (st2, eff) => .ok (.OK, st2, eff)
    | .error e => .error e
  else if cmd_id == "volume_down" then
    match h.navPrev st with
    | .ok (st2, eff) => .ok (.OK, st2, eff)
    | .error e => .error e
  else if SUPPRESSED_COMMANDS.contains cmd_id then .ok (.OK, st, [])
  else if ["REFRESH_STATUS", "UPDATE_DISPLAY", "SYSTEM_INFO"].contains cmd_id then
    match h.custom cmd_id params st with
    | .ok (st2, eff) => .ok (.OK, st2, eff)
    | .error e => .error e
  else .ok (.NOT_IMPLEMENTED, st, [])

/-- `SynologySystemDashboard.handle_command` (media_player.py,
lines 172-208): the try-block wrapped in the `except Exception` clause
that converts any raised exception into `SERVER_ERROR`. -/
def dashboard_handle_command (h : DashboardHandlers) (st : DashboardState)
    (cmd_id : String) (params : Option (List (String × String))) :
    StatusCodes × DashboardState × List HubEffect :=
  match dashboard_try_body h st cmd_id params with
  | .ok r => r
  | .error e => (.SERVER_ERROR, e.2.1, e.2.2)

/-- C4 (confirmed): every denylisted transport command, under every
entity state, every parameter dictionary and every behavior of the
sub-handlers, is answered `OK` with the state unchanged and no fetch,
push, or loop effect performed. -/
theorem suppressed_commands_are_noop_success (h : DashboardHandlers)
    (st : DashboardState) (params : Option (List (String × String)))
    (cmd_id : String) (hmem : cmd_id ∈ SUPPRESSED_COMMANDS) :
    dashboard_handle_command h st cmd_id params = (.OK, st, []) := by
  fin_cases hmem <;> rfl

/-- Sub-handlers that perform no action, used to witness the dispatch
theorems at a concrete instantiation. -/
def inertDashboardHandlers : DashboardHandlers where
  sourceSelection := fun _ st => .ok (st, [])
  powerOn := fun st => .ok (st, [])
  powerOff := fun st => .ok (st, [])
  navNext := fun st => .ok (st, [])
  navPrev := fun st => .ok (st, [])
  custom := fun _ _ st => .ok (st, [])

/-- A concrete dashboard state (the initial attribute snapshot built in
`_create_media_player_entity`). -/
def initialDashboardState : DashboardState :=
  { current_source := "System Overview"
    attributes :=
      { state := "PAUSED"
        source := "System Overview"
        media_title := "Synology System Monitor"
        media_artist := "Initializing..."
        media_image_url := "" }
    polling_active := false }

/-- Witness for C4 at the concrete command `"play_pause"`. -/
theorem suppressed_commands_are_noop_success_witness :
    dashboard_handle_command inertDashboardHandlers initialDashboardState
      "play_pause" none = (.OK, initialDashboardState, []) :=
  suppressed_commands_are_noop_success inertDashboardHandlers initialDashboardState
    none "play_pause" (by decide)

/-- The camera monitor's state (`SynologyCameraMonitor`,
camera_media_player.py): selected camera view, attribute snapshot, and
polling activity. -/
structure CameraState where
  current_camera : String
  attributes : DashboardAttributes
  polling_active : Bool
deriving DecidableEq

/-- The sub-handlers awaited by `SynologyCameraMonitor.handle_command`. -/
structure CameraHandlers where
  cameraSelection : String → CameraState → SubOutcome CameraState
  cameraOn : CameraState → SubOutcome CameraState
  cameraOff : CameraState → SubOutcome CameraState
  refreshDisplay : CameraState → SubOutcome CameraState

/-- The try-block of `SynologyCameraMonitor.handle_command`
(camera_media_player.py, lines 266-293). -/
def camera_try_body (h : CameraHandlers) (st : CameraState) (cmd_id : String)
    (params : Option (List (String × String))) :
    Except (String × CameraState × List HubEffect)
      (StatusCodes × CameraState × List HubEffect) :=
  if cmd_id == "select_source" then
    match get_param params "source" with
    | some s =>
      if s == "" then .ok (.BAD_REQUEST, st, [])
      else
        match h.cameraSelection s st with
        | .ok (st2, eff) => .ok (.OK, st2, eff)
        | .error e => .error e
    | none => .ok (.BAD_REQUEST, st, [])
  else if cmd_id == "on" then
    match h.cameraOn st with
    | .ok (st2, eff) => .ok (.OK, st2, eff)
    | .error e => .error e
  else if cmd_id == "off" then
    match h.cameraOff st with
    | .ok (st2, eff) => .ok (.OK, st2, eff)
    | .error e => .error e
  else if cmd_id == "volume_up" then
    match h.refreshDisplay st with
    | .ok (st2, eff) => .ok (.OK, st2, eff)
    | .error e => .error e
  else if cmd_id == "volume_down" then
    match h.refreshDisplay st with
    | .ok (st2, eff) => .ok (.OK, st2, eff)
    | .error e => .error e
  else if SUPPRESSED_COMMANDS.contains cmd_id then .ok (.OK, st, [])
  else .ok (.NOT_IMPLEMENTED, st, [])

/-- `SynologyCameraMonitor.handle_command`: the try-block wrapped in the
`except Exception` clause returning `SERVER_ERROR`. -/
def camera_handle_command (h : CameraHandlers) (st : CameraState)
    (cmd_id : String) (params : Option (List (String × String))) :
    StatusCodes × CameraState × List HubEffect :=
  match camera_try_body h st cmd_id params with
  | .ok r => r
  | .error e => (.SERVER_ERROR, e.2.1, e.2.2)

/-- The remote entity's state (`SynologySystemRemote`, remote.py): the
single `STATE` attribute. -/
structure RemoteState where
  state : String
deriving DecidableEq

/-- The sub-handlers awaited by `SynologySystemRemote.handle_command`.
`systemCommand` returns the boolean success flag of
`_handle_system_command`. -/
structure RemoteHandlers where
  remoteOn : RemoteState → SubOutcome RemoteState
  remoteOff : RemoteState → SubOutcome RemoteState
  systemCommand : String → Option (List (String × String)) → RemoteState →
    Except (String × RemoteState × List HubEffect) (Bool × RemoteState × List HubEffect)

/-- The try-block of `SynologySystemRemote.handle_command` (remote.py,
lines 68-81): `SEND_CMD` maps the sub-handler's boolean to
`OK`/`SERVER_ERROR`; a missing or empty command name is `BAD_REQUEST`. -/
def remote_try_body (h : RemoteHandlers) (st : RemoteState) (cmd_id : String)
    (params : Option (List (String × String))) :
    Except (String × RemoteState × List HubEffect)
      (StatusCodes × RemoteState × List HubEffect) :=
  if cmd_id == "on" then
    match h.remoteOn st with
    | .ok (st2, eff) => .ok (.OK, st2, eff)
    | .error e => .error e
  else if cmd_id == "off" then
    match h.remoteOff st with
    | .ok (st2, eff) => .ok (.OK, st2, eff)
    | .error e => .error e
  else if cmd_id == "send_cmd" then
    match get_param params "command" with
    | some c =>
      if c == "" then .ok (.BAD_REQUEST, st, [])
      else
        match h.systemCommand c params st with
        | .ok (success, st2, eff) =>
          .ok (if success then .OK else .SERVER_ERROR, st2, eff)
        | .error e => .error e
    | none => .ok (.BAD_REQUEST, st, [])
  else .ok (.NOT_IMPLEMENTED, st, [])

/-- `SynologySystemRemote.handle_command` (remote.py, lines 64-84). -/
def remote_handle_command (h : RemoteHandlers) (st : RemoteState)
    (cmd_id : String) (params : Option (List (String × String))) :
    StatusCodes × RemoteState × List HubEffect :=
  match remote_try_body h st cmd_id params with
  | .ok r => r
  | .error e => (.SERVER_ERROR, e.2.1, e.2.2)

/-- C6 (confirmed): for every command identifier, parameter dictionary,
entity state and sub-handler behavior, if the try-block of the
dashboard, camera or remote handler raises, the handler returns the
generic `SERVER_ERROR` result; each handler is a total function into
result codes, so no exception propagates to the caller. -/
theorem handler_catches_all_exceptions :
    (∀ (h : DashboardHandlers) (st : DashboardState) (cmd_id : String)
        (params : Option (List (String × String)))
        (e : String × DashboardState × List HubEffect),
      dashboard_try_body h st cmd_id params = .error e →
      dashboard_handle_command h st cmd_id params = (.SERVER_ERROR, e.2.1, e.2.2)) ∧
    (∀ (h : CameraHandlers) (st : CameraState) (cmd_id : String)
        (params : Option (List (String × String)))
        (e : String × CameraState × List HubEffect),
      camera_try_body h st cmd_id params = .error e →
      camera_handle_command h st cmd_id params = (.SERVER_ERROR, e.2.1, e.2.2)) ∧
    (∀ (h : RemoteHandlers) (st : RemoteState) (cmd_id : String)
        (params : Option (List (String × String)))
        (e : String × RemoteState × List HubEffect),
      remote_try_body h st cmd_id params = .error e →
      remote_handle_command h st cmd_id params = (.SERVER_ERROR, e.2.1, e.2.2)) := by
  refine ⟨?_, ?_, ?_⟩ <;>
    { intro h st cmd_id params e heq
      first
      | (unfold dashboard_handle_command; rw [heq])
      | (unfold camera_handle_command; rw [heq])
      | (unfold remote_handle_command; rw [heq]) }

/-- Dashboard sub-handlers that always raise, used to witness C6. -/
def raisingDashboardHandlers : DashboardHandlers where
  sourceSelection := fun _ st => .error ("boom", st, [])
  powerOn := fun st => .error ("boom", st, [])
  powerOff := fun st => .error ("boom", st, [])
  navNext := fun st => .error ("boom", st, [])
  navPrev := fun st => .error ("boom", st, [])
  custom := fun _ _ st => .error ("boom", st, [])

/-- Camera sub-handlers that always raise, used to witness C6. -/
def raisingCameraHandlers : CameraHandlers where
  cameraSelection := fun _ st => .error ("boom", st, [])
  cameraOn := fun st => .error ("boom", st, [])
  cameraOff := fun st => .error ("boom", st, [])
  refreshDisplay := fun st => .error ("boom", st, [])

/-- Remote sub-handlers that always raise, used to witness C6. -/
def raisingRemoteHandlers : RemoteHandlers where
  remoteOn := fun st => .error ("boom", st, [])
  remoteOff := fun st => .error ("boom", st, [])
  systemCommand := fun _ _ st => .error ("boom", st, [])

/-- A concrete camera state for the C6 witness. -/
def initialCameraState : CameraState :=
  { current_camera := "All Cameras"
    attributes :=
      { state := "PAUSED", source := "All Cameras", media_title := ""
        media_artist := "", media_image_url := "" }
    polling_active := false }

/-- Witness for C6: raising sub-handlers on the `"on"` command yield
`SERVER_ERROR` from all three handlers. -/
theorem handler_catches_all_exceptions_witness :
    dashboard_handle_command raisingDashboardHandlers initialDashboardState "on" none =
      (.SERVER_ERROR, initialDashboardState, []) ∧
    camera_handle_command raisingCameraHandlers initialCameraState "on" none =
      (.SERVER_ERROR, initialCameraState, []) ∧
    remote_handle_command raisingRemoteHandlers ⟨"OFF"⟩ "on" none =
      (.SERVER_ERROR, ⟨"OFF"⟩, []) :=
  ⟨handler_catches_all_exceptions.1 raisingDashboardHandlers initialDashboardState
      "on" none ("boom", initialDashboardState, []) rfl,
   handler_catches_all_exceptions.2.1 raisingCameraHandlers initialCameraState
      "on" none ("boom", initialCameraState, []) rfl,
   handler_catches_all_exceptions.2.2 raisingRemoteHandlers ⟨"OFF"⟩
      "on" none ("boom", ⟨"OFF"⟩, []) rfl⟩

/-- `max_failures` in `_background_monitoring_loop` (driver.py, line 218). -/
def max_failures : Nat := 3

/-- Whether `hasattr(_client, "reconnect_after_reboot")` holds for this
repository's client: `SynologySystemClient` (client.py) defines no
method of that name, so the guard in driver.py evaluates to `False`. -/
def synology_client_has_reconnect : Bool := false

/-- One iteration of `_background_monitoring_loop` (driver.py,
lines 220-254) acting on the consecutive-failure counter.
`connected` is `_client.connected`; `health_ok` is whether the health
check returned truthy data without raising; `reconnect_ok` is the result
the reconnection strategy would report.  Returns the new counter and
whether the reconnection strategy was invoked during the iteration. -/
def monitoring_tick (has_reconnect connected health_ok reconnect_ok : Bool)
    (failures : Nat) : Nat × Bool :=
  if connected then
    let f1 := if health_ok then 0 else failures + 1
    if f1 ≥ max_failures then
      if has_reconnect then (if reconnect_ok then 0 else f1, true)
      else (f1, false)
    else (f1, false)
  else
    let f1 := failures + 1
    if f1 ≥ max_failures then (f1, if has_reconnect then true else false)
    else (f1, false)

/-- Run a sequence of monitoring iterations from a zero counter,
accumulating how often the reconnection strategy was invoked.  Each tick
is `(connected, health_ok, reconnect_ok)`. -/
def run_monitor (has_reconnect : Bool) (ticks : List (Bool × Bool × Bool)) : Nat × Nat :=
  ticks.foldl
    (fun acc t =>
      let r := monitoring_tick has_reconnect t.1 t.2.1 t.2.2 acc.1
      (r.1, acc.2 + (if r.2 then 1 else 0)))
    (0, 0)

/-- C8 (code bug): after three consecutive health-check failures while
connected, the loop running against this repository's client invokes the
reconnection strategy zero times and leaves the counter at 3 — the
`hasattr` guard never passes because `SynologySystemClient` has no
`reconnect_after_reboot` — whereas a client that did provide the
strategy (second conjunct) would see exactly one invocation followed by
a counter reset to 0, which is what the claim describes. -/
theorem monitoring_loop_never_reconnects :
    run_monitor synology_client_has_reconnect
      [(true, false, true), (true, false, true), (true, false, true)] = (3, 0) ∧
    run_monitor true
      [(true, false, true), (true, false, true), (true, false, true)] = (0, 1) := by
  decide

/-- The polling-task bookkeeping of a monitoring entity
(`SynologySystemDashboard.start` / `stop`, media_player.py
lines 705-720, and identically `SynologyCameraMonitor.start` / `stop`,
camera_media_player.py lines 447-462): `slot` is `self._polling_task`
(task identifiers stand in for task objects), `running` lists the loop
tasks currently alive, and `fresh` supplies identifiers for newly
spawned tasks. -/
structure LoopSys where
  slot : Option Nat
  running : List Nat
  fresh : Nat
deriving DecidableEq

/-- `not self._polling_task or self._polling_task.done()`: a task is
done exactly when it is no longer running. -/
def slot_free (s : LoopSys) : Bool :=
  match s.slot with
  | none => true
  | some t => !(s.running.contains t)

/-- `start()`: when no live task is held and the client is connected,
spawn a new polling-loop task and remember it; otherwise do nothing. -/
def do_start (connected : Bool) (s : LoopSys) : LoopSys :=
  if slot_free s then
    if connected then ⟨some s.fresh, s.fresh :: s.running, s.fresh + 1⟩ else s
  else s

/-- `stop()`: when a live task is held, cancel it and await its
termination (the loop body catches `CancelledError` and exits, so the
await completes with the task finished), then clear the slot. -/
def do_stop (s : LoopSys) : LoopSys :=
  match s.slot with
  | some t => if s.running.contains t then ⟨none, s.running.erase t, s.fresh⟩ else s
  | none => s

/-- A call arriving at the entity: `start()` with the client connected
or not, or `stop()`. -/
inductive LoopEvent where
  | start (connected : Bool)
  | stop
deriving DecidableEq

/-- Apply one lifecycle call. -/
def loop_step (s : LoopSys) : LoopEvent → LoopSys
  | .start c => do_start c s
  | .stop => do_stop s

/-- The entity before any lifecycle call: no task exists. -/
def initLoopSys : LoopSys := ⟨none, [], 0⟩

/-- The state after a sequence of sequential `start()` / `stop()` calls
(the integration runs them on one cooperative event loop, so the calls
of one entity are serialized). -/
def run_loop_events (evs : List LoopEvent) : LoopSys :=
  evs.foldl loop_step initLoopSys

/-- The inductive invariant: the live loop tasks are distinct, and every
live loop task is the one held in the slot. -/
def LoopInv (s : LoopSys) : Prop :=
  s.running.Nodup ∧ ∀ t ∈ s.running, s.slot = some t

lemma loopInv_length_le_one (s : LoopSys) (h : LoopInv s) : s.running.length ≤ 1 := by
  obtain ⟨hnd, hall⟩ := h
  match hr : s.running with
  | [] => simp
  | [a] => simp
  | a :: b :: rest =>
    have ha : s.slot = some a := hall a (by rw [hr]; simp)
    have hb : s.slot = some b := hall b (by rw [hr]; simp)
    have hab : a = b := by
      have := ha.symm.trans hb
      exact Option.some.inj this
    rw [hr] at hnd
    rcases List.nodup_cons.mp hnd with ⟨hnotin, _⟩
    exact absurd (by simp [hab] : a ∈ b :: rest) hnotin

lemma running_nil_of_slot_free (s : LoopSys) (h : LoopInv s)
    (hfree : slot_free s = true) : s.running = [] := by
  obtain ⟨_, hall⟩ := h
  rcases hslot : s.slot with _ | t0
  · refine List.eq_nil_iff_forall_not_mem.mpr fun t ht => ?_
    have h1 := hall t ht
    rw [hslot] at h1
    exact Option.noConfusion h1
  · have hnotmem : ¬ t0 ∈ s.running := by
      have h2 := hfree
      unfold slot_free at h2
      rw [hslot] at h2
      simpa using h2
    refine List.eq_nil_iff_forall_not_mem.mpr fun u hu => ?_
    have h1 := hall u hu
    rw [hslot] at h1
    have hu0 : u = t0 := (Option.some.inj h1).symm
    subst hu0
    exact hnotmem hu

lemma loopInv_do_start (c : Bool) (s : LoopSys) (h : LoopInv s) :
    LoopInv (do_start c s) := by
  unfold do_start
  by_cases hfree : slot_free s = true
  · have hnil := running_nil_of_slot_free s h hfree
    rw [hfree]
    simp only [if_true]
    cases c with
    | false => simpa using h
    | true =>
      simp only [if_true]
      constructor
      · rw [hnil]; simp
      · intro t ht
        rw [hnil] at ht
        simp only [List.mem_singleton] at ht
        simp [ht]
  · simp only [Bool.not_eq_true] at hfree
    rw [hfree]
    simpa using h

lemma loopInv_do_stop (s : LoopSys) (h : LoopInv s) : LoopInv (do_stop s) := by
  rcases hslot : s.slot with _ | t
  · simpa [do_stop, hslot] using h
  · by_cases hc : s.running.contains t = true
    · simp only [do_stop, hslot, hc, if_true]
      obtain ⟨hnd, hall⟩ := h
      refine ⟨hnd.erase t, fun u hu => ?_⟩
      have hu2 : u ∈ s.running := List.mem_of_mem_erase hu
      have h1 := hall u hu2
      rw [hslot] at h1
      have hut : u = t := (Option.some.inj h1).symm
      subst hut
      exact absurd hu hnd.not_mem_erase
    · simp only [Bool.not_eq_true] at hc
      have hnot : t ∉ s.running := by simpa using hc
      simpa [do_stop, hslot, hnot] using h

lemma loopInv_step (s : LoopSys) (e : LoopEvent) (h : LoopInv s) :
    LoopInv (loop_step s e) := by
  cases e with
  | start c => exact loopInv_do_start c s h
  | stop => exact loopInv_do_stop s h

lemma loopInv_foldl (evs : List LoopEvent) (s : LoopSys) (h : LoopInv s) :
    LoopInv (evs.foldl loop_step s) := by
  induction evs generalizing s with
  | nil => exact h
  | cons e rest ih => exact ih (loop_step s e) (loopInv_step s e h)

lemma loopInv_run (evs : List LoopEvent) : LoopInv (run_loop_events evs) :=
  loopInv_foldl evs initLoopSys (by constructor <;> simp [initLoopSys])

lemma do_stop_running_nil (s : LoopSys) (h : LoopInv s) : (do_stop s).running = [] := by
  rcases hslot : s.slot with _ | t
  · have hfree : slot_free s = true := by unfold slot_free; rw [hslot]
    simpa [do_stop, hslot] using running_nil_of_slot_free s h hfree
  · by_cases hc : s.running.contains t = true
    · simp only [do_stop, hslot, hc, if_true]
      obtain ⟨hnd, hall⟩ := h
      refine List.eq_nil_iff_forall_not_mem.mpr fun u hu => ?_
      have hu2 : u ∈ s.running := List.mem_of_mem_erase hu
      have h1 := hall u hu2
      rw [hslot] at h1
      have hut : u = t := (Option.some.inj h1).symm
      subst hut
      exact hnd.not_mem_erase hu
    · simp only [Bool.not_eq_true] at hc
      have hnot : t ∉ s.running := by simpa using hc
      have hfree : slot_free s = true := by
        unfold slot_free; rw [hslot]; simp [hnot]
      simpa [do_stop, hslot, hnot] using running_nil_of_slot_free s h hfree

/-- C9 (confirmed): over every sequence of sequential `start()` and
`stop()` calls, (1) at most one polling-loop task of the entity is ever
alive, (2) after `stop()` returns, no loop task of the entity is alive
(the task has fully finished), (3) `start()` is a no-op while a loop is
alive and (4) a no-op when the client is not connected, and (5) a
`start()` following a `stop()` still leaves at most one loop alive. -/
theorem polling_loop_exclusive (evs : List LoopEvent) :
    (run_loop_events evs).running.length ≤ 1 ∧
    (do_stop (run_loop_events evs)).running = [] ∧
    (∀ c, slot_free (run_loop_events evs) = false →
      do_start c (run_loop_events evs) = run_loop_events evs) ∧
    (do_start false (run_loop_events evs) = run_loop_events evs) ∧
    (∀ c, (do_start c (do_stop (run_loop_events evs))).running.length ≤ 1) := by
  have hinv := loopInv_run evs
  refine ⟨loopInv_length_le_one _ hinv, do_stop_running_nil _ hinv, ?_, ?_, ?_⟩
  · intro c hfree
    simp [do_start, hfree]
  · by_cases hfree : slot_free (run_loop_events evs) = true
    · simp [do_start, hfree]
    · simp only [Bool.not_eq_true] at hfree
      simp [do_start, hfree]
  · intro c
    have h2 := loopInv_do_stop _ hinv
    have h3 := loopInv_do_start c _ h2
    exact loopInv_length_le_one _ h3

/-- Witness for C9 at the concrete call sequence `[start(connected)]`:
one loop is alive, a second `start()` changes nothing, and
`stop()` followed by `start()` leaves at most one loop. -/
theorem polling_loop_exclusive_witness :
    (run_loop_events [LoopEvent.start true]).running.length ≤ 1 ∧
    do_start true (run_loop_events [LoopEvent.start true]) =
      run_loop_events [LoopEvent.start true] ∧
    (do_start true (do_stop (run_loop_events [LoopEvent.start true]))).running.length ≤ 1 :=
  ⟨(polling_loop_exclusive [LoopEvent.start true]).1,
   (polling_loop_exclusive [LoopEvent.start true]).2.2.1 true (by decide),
   (polling_loop_exclusive [LoopEvent.start true]).2.2.2.2 true⟩

/-- The fields of the system-overview status record consumed by
`_update_system_overview_display` (media_player.py, lines 335-340).
`cpu_usage` and `memory_usage` are carried as integers; the client's
floats hold integral values on this path and Python renders them with
`:.1f` exactly as `pyFormatTenths` does. -/
structure SystemOverviewRecord where
  model : String
  status : String
  cpu_usage : Int
  memory_usage : Int
  temperature : String
deriving DecidableEq

/-- `SynologySystemDashboard._update_system_overview_display`
(media_player.py, lines 335-340): on a non-empty (truthy) record, set
the entity state to `PLAYING` exactly when the record's status is
`"healthy"` and `PAUSED` otherwise, and rebuild the two display lines;
an empty record leaves the attributes untouched. -/
def update_system_overview_display (attrs : DashboardAttributes)
    (data : Option SystemOverviewRecord) : DashboardAttributes :=
  match data with
  | none => attrs
  | some d =>
    let st := if d.status == "healthy" then "PLAYING" else "PAUSED"
    let line1 := d.model ++ " - " ++ pyTitle d.status
    let line2 := "CPU: " ++ pyFormatTenths (10 * d.cpu_usage) ++ "% | Mem: " ++
      pyFormatTenths (10 * d.memory_usage) ++ "% | " ++ d.temperature
    let r := create_two_line_display line1.data line2.data 80
    { attrs with state := st, media_title := ⟨r.1⟩, media_artist := ⟨r.2⟩ }

/-- C10 (confirmed): on every non-empty status record, the
system-overview formatter sets the entity state to `"PLAYING"` if and
only if the record's status equals `"healthy"`, and to `"PAUSED"` in
every other case — so a fetched status of `"warning"` or `"critical"`
flips the externally visible state to paused. -/
theorem system_overview_state_iff_healthy (attrs : DashboardAttributes)
    (d : SystemOverviewRecord) :
    ((update_system_overview_display attrs (some d)).state = "PLAYING" ↔
      d.status = "healthy") ∧
    (d.status ≠ "healthy" →
      (update_system_overview_display attrs (some d)).state = "PAUSED") := by
  unfold update_system_overview_display
  by_cases h : d.status = "healthy"
  · simp [h]
  · have hb : (d.status == "healthy") = false := by
      simp only [beq_eq_false_iff_ne, ne_eq]
      exact h
    simp only [hb, if_false]
    refine ⟨?_, fun _ => rfl⟩
    constructor
    · intro habs
      exact absurd habs (by decide)
    · intro habs
      exact absurd habs h

/-- Witness for C10 at a concrete `"warning"` record: the entity state
flips to `"PAUSED"`. -/
theorem system_overview_state_iff_healthy_witness :
    (update_system_overview_display initialDashboardState.attributes
      (some ⟨"DS920+", "warning", 75, 80, "45C"⟩)).state = "PAUSED" :=
  (system_overview_state_iff_healthy initialDashboardState.attributes
    ⟨"DS920+", "warning", 75, 80, "45C"⟩).2 (by decide)

end Synology
